import Mathlib

/-!
Verification of the Atlas-v3 schematic-extraction pipeline.

Shallow embedding of the extraction orchestrator (src/services/extraction_service.py),
the recognition-adapter boundary (src/services/gemini_service.py), the reference
resolver and the validation engine (src/services/validation_service.py), over the
record model of src/models.py.  Record fields that no claim inspects (timestamps,
free-text descriptions, geometry paths, terminal designators) are omitted; every
field that is read or written by the modelled control flow is kept.
-/

namespace Atlas

/-- Extraction lifecycle states, mirroring models.ExtractionStatus. -/
inductive ExtractionStatus where
  | pending
  | inProgress
  | completed
  | failed
  | partialDone
  | cancelled
deriving DecidableEq, Repr

/-- One SchematicPage row (models.SchematicPage).  The table declares only these
columns: there is no schematic_total, dwg_no or drawing_title column, which is
what makes the orchestrator's SchematicPage construction raise. -/
structure PageRec where
  fileId : Nat
  pdfPageIndex : Int
  schematicPageNumber : Option Int
  width : Option ℚ
  height : Option ℚ
  detectionConfidence : ℚ
  isProcessed : Bool
deriving DecidableEq, Repr

/-- One Component row (models.Component); mark is NOT NULL. -/
structure ComponentRec where
  id : Nat
  fileId : Nat
  mark : String
  pdfPageIndex : Int
  schematicPageNumber : Option Int
  x : Option ℚ
  y : Option ℚ
deriving DecidableEq, Repr

/-- One Connection row (models.Connection): raw textual marks plus the resolved
identifiers that the reference resolver rewrites. -/
structure ConnectionRec where
  id : Nat
  fileId : Nat
  fromComponentId : Option Nat
  toComponentId : Option Nat
  fromComponentMark : Option String
  toComponentMark : Option String
  pdfPageIndex : Int
  isExternal : Bool
deriving DecidableEq, Repr

/-- One WireLabel row (models.WireLabel); label is NOT NULL. -/
structure WireLabelRec where
  id : Nat
  fileId : Nat
  label : String
  pdfPageIndex : Int
deriving DecidableEq, Repr

/-- One Continuation row (models.Continuation). -/
structure ContinuationRec where
  id : Nat
  fileId : Nat
  fromComponentMark : Option String
  pdfPageIndex : Int
  toPageHint : Option String
  direction : Option String
  isExternal : Bool
deriving DecidableEq, Repr

/-- One ExtractionError row (models.ExtractionError); the structured details
blob and retry counter are omitted. -/
structure ExtractionErrorRec where
  fileId : Nat
  pdfPageIndex : Option Int
  errorType : String
  errorMessage : String
deriving DecidableEq, Repr

/-- The durable record store: rows of each table, in insertion order (the
deterministic iteration order the resolver and validator rely on). -/
structure Store where
  pages : List PageRec
  components : List ComponentRec
  connections : List ConnectionRec
  wireLabels : List WireLabelRec
  continuations : List ContinuationRec
  errors : List ExtractionErrorRec
deriving DecidableEq, Repr

/-- The mutable per-document fields the orchestrator touches on the
SchematicFile row (models.SchematicFile). -/
structure DocState where
  extractionStatus : ExtractionStatus
  totalPagesProcessed : Nat
  geminiFileUri : Option String
deriving DecidableEq, Repr

/-- The SQLAlchemy session: committed durable state, records added and flushed
inside the open transaction but not yet committed, the dirty (in-memory) copy of
the document row versus its last committed state, the primary-key counter, and
the poisoned flag a failed flush sets (after which commit raises until a
rollback, per SQLAlchemy session semantics). -/
structure Session where
  committed : Store
  committedDoc : DocState
  dirtyDoc : DocState
  pendingComponents : List ComponentRec
  pendingConnections : List ConnectionRec
  pendingWireLabels : List WireLabelRec
  pendingContinuations : List ContinuationRec
  pendingErrors : List ExtractionErrorRec
  poisoned : Bool
  nextId : Nat
deriving DecidableEq, Repr

/-- db.commit(): makes every pending record durable and persists the dirty
document fields; raises (returns none) when a previous flush failed. -/
def Session.commit (s : Session) : Option Session :=
  if s.poisoned then none
  else
    some { s with
      committed := { s.committed with
        components := s.committed.components ++ s.pendingComponents
        connections := s.committed.connections ++ s.pendingConnections
        wireLabels := s.committed.wireLabels ++ s.pendingWireLabels
        continuations := s.committed.continuations ++ s.pendingContinuations
        errors := s.committed.errors ++ s.pendingErrors }
      committedDoc := s.dirtyDoc
      pendingComponents := []
      pendingConnections := []
      pendingWireLabels := []
      pendingContinuations := []
      pendingErrors := [] }

/-- A session with no open transaction debris: not poisoned and nothing pending.
This is the state at every page boundary of a run that has only seen successful
commits. -/
def Session.Quiescent (s : Session) : Prop :=
  s.poisoned = false ∧ s.pendingComponents = [] ∧ s.pendingConnections = [] ∧
    s.pendingWireLabels = [] ∧ s.pendingContinuations = [] ∧ s.pendingErrors = []

/-- db.add(Component(...)) followed by db.flush() (extraction_service lines
336-351): the INSERT joins the open transaction and the id becomes available;
the uq_component_mark_page constraint (models.py line 161) makes the flush
raise IntegrityError when (file, mark, page) already exists among committed or
already-flushed rows, leaving the session poisoned. -/
def Session.addComponentFlush (s : Session) (fileId : Nat) (mark : String)
    (pdfPageIndex : Int) (schematicPageNumber : Option Int) (x y : Option ℚ) :
    Session × Option Nat :=
  if (s.committed.components ++ s.pendingComponents).any
      (fun c => c.fileId == fileId && c.mark == mark && c.pdfPageIndex == pdfPageIndex)
  then ({ s with poisoned := true }, none)
  else
    (({ s with
        pendingComponents := s.pendingComponents ++
          [{ id := s.nextId, fileId := fileId, mark := mark,
             pdfPageIndex := pdfPageIndex,
             schematicPageNumber := schematicPageNumber, x := x, y := y }]
        nextId := s.nextId + 1 }), some s.nextId)

/-- db.add(Connection(...)) + db.flush() (lines 360-373); no table constraint
applies, so the flush succeeds. -/
def Session.addConnectionFlush (s : Session) (fileId : Nat)
    (fromMark toMark : Option String) (pdfPageIndex : Int) (isExternal : Bool) :
    Session × Nat :=
  ({ s with
      pendingConnections := s.pendingConnections ++
        [{ id := s.nextId, fileId := fileId, fromComponentId := none,
           toComponentId := none, fromComponentMark := fromMark,
           toComponentMark := toMark, pdfPageIndex := pdfPageIndex,
           isExternal := isExternal }]
      nextId := s.nextId + 1 }, s.nextId)

/-- db.add(WireLabel(...)) + db.flush() (lines 382-391). -/
def Session.addWireLabelFlush (s : Session) (fileId : Nat) (label : String)
    (pdfPageIndex : Int) : Session × Nat :=
  ({ s with
      pendingWireLabels := s.pendingWireLabels ++
        [{ id := s.nextId, fileId := fileId, label := label,
           pdfPageIndex := pdfPageIndex }]
      nextId := s.nextId + 1 }, s.nextId)

/-- db.add(Continuation(...)) + db.flush() (lines 400-410). -/
def Session.addContinuationFlush (s : Session) (fileId : Nat)
    (fromMark : Option String) (pdfPageIndex : Int)
    (toPageHint direction : Option String) : Session × Nat :=
  ({ s with
      pendingContinuations := s.pendingContinuations ++
        [{ id := s.nextId, fileId := fileId, fromComponentMark := fromMark,
           pdfPageIndex := pdfPageIndex, toPageHint := toPageHint,
           direction := direction, isExternal := true }]
      nextId := s.nextId + 1 }, s.nextId)

/- ------------------------------------------------------------------ -/
/- Reference resolver (extraction_service.resolve_component_references) -/
/- ------------------------------------------------------------------ -/

/-- One iteration of the mark_to_id building loop (lines 449-454): the
page-scoped dict entry is overwritten unconditionally, the mark-only entry is
written only when the mark is not yet bound (first component wins). -/
def markToIdStep
    (maps : ((String × Int) → Option Nat) × (String → Option Nat))
    (comp : ComponentRec) :
    ((String × Int) → Option Nat) × (String → Option Nat) :=
  (fun k => if k = (comp.mark, comp.pdfPageIndex) then some comp.id else maps.1 k,
   fun m =>
     if (maps.2 comp.mark).isSome then maps.2 m
     else if m = comp.mark then some comp.id else maps.2 m)

/-- The two lookup tables built from the document's components; Python stores
both under one dict whose tuple keys and string keys never collide. -/
def buildMarkToId (comps : List ComponentRec) :
    ((String × Int) → Option Nat) × (String → Option Nat) :=
  comps.foldl markToIdStep (fun _ => none, fun _ => none)

/-- Python truthiness of a nullable text column: None and the empty string are
falsy. -/
def pyTruthy : Option String → Bool
  | none => false
  | some s => !(s == "")

/-- Resolution of one endpoint mark (the body that lines 462-468 and 470-475
each repeat): skip falsy marks, try the page-scoped key, fall back to the
mark-only key, else keep the current identifier. -/
def resolveOneSide (pageMap : (String × Int) → Option Nat)
    (markMap : String → Option Nat) (markOpt : Option String) (p : Int)
    (current : Option Nat) : Option Nat :=
  match markOpt with
  | none => current
  | some m =>
    if m = "" then current
    else
      match pageMap (m, p) with
      | some i => some i
      | none =>
        match markMap m with
        | some i => some i
        | none => current

/-- Resolution of one connection (lines 461-475): the from and to sides are
resolved independently. -/
def resolveConn (pageMap : (String × Int) → Option Nat)
    (markMap : String → Option Nat) (conn : ConnectionRec) : ConnectionRec :=
  { conn with
      fromComponentId := resolveOneSide pageMap markMap conn.fromComponentMark
        conn.pdfPageIndex conn.fromComponentId
      toComponentId := resolveOneSide pageMap markMap conn.toComponentMark
        conn.pdfPageIndex conn.toComponentId }

/-- resolve_component_references (lines 436-477): build the lookup from the
document's components in store order, rewrite every connection of the document,
commit.  Modelled at store level; rows of other documents are untouched. -/
def resolveComponentReferences (fileId : Nat) (store : Store) : Store :=
  let comps := store.components.filter (fun c => c.fileId == fileId)
  let maps := buildMarkToId comps
  { store with
      connections := store.connections.map
        (fun c => if c.fileId == fileId then resolveConn maps.1 maps.2 c else c) }

/-- The lookup discipline the spec describes for one mark, phrased against
store-iteration order: the page-scoped tier (the dict keeps the last writer for
a duplicated page-scoped key), then the first component bearing the mark, else
the unchanged fallback value. -/
def twoTierLookup (comps : List ComponentRec) (m : String) (p : Int)
    (dfl : Option Nat) : Option Nat :=
  match comps.reverse.find? (fun c => c.mark == m && c.pdfPageIndex == p) with
  | some c => some c.id
  | none =>
    match comps.find? (fun c => c.mark == m) with
    | some c => some c.id
    | none => dfl

/- ------------------------------------------------------------------ -/
/- Validation engine (validation_service.ValidationService)            -/
/- ------------------------------------------------------------------ -/

/-- One discrepancy entry; the human message and count payloads are omitted,
the type tag and severity (which drives status derivation) are kept. -/
structure Discrepancy where
  dtype : String
  severity : String
deriving DecidableEq, Repr

/-- A ValidationResult row (models.ValidationResult). -/
structure ValidationResultRec where
  fileId : Nat
  pdfPageIndex : Option Int
  validationType : String
  status : String
  confidenceScore : ℚ
  discrepancies : List Discrepancy
deriving DecidableEq, Repr

/-- The expected_counts argument of validate_page: a dict whose components and
connections keys may each be absent. -/
structure ExpectedCounts where
  components : Option Nat
  connections : Option Nat
deriving DecidableEq, Repr

/-- Python truthiness of the expected_counts argument: None or an empty dict is
falsy. -/
def expectedTruthy : Option ExpectedCounts → Bool
  | none => false
  | some e => e.components.isSome || e.connections.isSome

/-- _validate_coordinates (validation_service lines 214-255): skipped when the
page row is missing or has falsy (null or zero) dimensions; a component is
checked only when both x and y are non-null, and each offending coordinate
yields one warning. -/
def validateCoordinates (store : Store) (fileId : Nat) (pdfPageIndex : Int) :
    List Discrepancy :=
  match (store.pages.filter
      (fun p => p.fileId == fileId && p.pdfPageIndex == pdfPageIndex)).head? with
  | none => []
  | some page =>
    match page.width, page.height with
    | some w, some h =>
      if w = 0 ∨ h = 0 then []
      else
        (store.components.filter
            (fun c => c.fileId == fileId && c.pdfPageIndex == pdfPageIndex)).flatMap
          (fun c =>
            match c.x, c.y with
            | some cx, some cy =>
              (if cx < 0 ∨ cx > w then
                  [{ dtype := "coord_out_of_bounds", severity := "warning" }] else []) ++
              (if cy < 0 ∨ cy > h then
                  [{ dtype := "coord_out_of_bounds", severity := "warning" }] else [])
            | _, _ => [])
    | _, _ => []

/-- _validate_data_integrity (lines 257-297): missing/sentinel component marks
and empty wire-label texts, one warning per category when the count is
positive. -/
def validateDataIntegrity (store : Store) (fileId : Nat) (pdfPageIndex : Int) :
    List Discrepancy :=
  let noMark := (store.components.filter
      (fun c => c.fileId == fileId && c.pdfPageIndex == pdfPageIndex &&
        (c.mark == "" || c.mark == "UNKNOWN"))).length
  let noLabel := (store.wireLabels.filter
      (fun w => w.fileId == fileId && w.pdfPageIndex == pdfPageIndex &&
        w.label == "")).length
  (if noMark > 0 then [{ dtype := "missing_marks", severity := "warning" }] else []) ++
  (if noLabel > 0 then [{ dtype := "missing_wire_labels", severity := "warning" }] else [])

/-- validate_page (lines 42-125): counts the page's rows, gathers
discrepancies, builds the completeness score list (a ratio per supplied
positive expected count, components then connections, NOT individually
capped), derives the status, and stores min(confidence, 1.0) where confidence
is the mean of the scores or the 0.9 default. -/
def validatePage (store : Store) (fileId : Nat) (pdfPageIndex : Int)
    (expected : Option ExpectedCounts) : ValidationResultRec :=
  let componentCount := (store.components.filter
      (fun c => c.fileId == fileId && c.pdfPageIndex == pdfPageIndex)).length
  let connectionCount := (store.connections.filter
      (fun c => c.fileId == fileId && c.pdfPageIndex == pdfPageIndex)).length
  let discrepancies :=
    (if componentCount = 0 then
        [{ dtype := "no_components", severity := "warning" : Discrepancy }] else []) ++
    validateCoordinates store fileId pdfPageIndex ++
    validateDataIntegrity store fileId pdfPageIndex
  let scores : List ℚ :=
    if expectedTruthy expected then
      match expected with
      | none => []
      | some e =>
        (match e.components with
          | some n => if 0 < n then [(componentCount : ℚ) / n] else []
          | none => []) ++
        (match e.connections with
          | some n => if 0 < n then [(connectionCount : ℚ) / n] else []
          | none => [])
    else []
  let status :=
    if discrepancies ≠ [] then
      if discrepancies.any (fun d => d.severity == "error") then "fail" else "warning"
    else "pass"
  let confidence := if scores = [] then 9/10 else scores.sum / scores.length
  { fileId := fileId, pdfPageIndex := some pdfPageIndex,
    validationType := "page", status := status,
    confidenceScore := min confidence 1, discrepancies := discrepancies }

/-- The confidence rule exactly as the claim words it (each ratio capped at 1.0
before averaging); defined only to be compared against validatePage. -/
def claimPerRatioCappedConfidence (componentCount connectionCount : Nat)
    (expected : Option ExpectedCounts) : ℚ :=
  if expectedTruthy expected then
    match expected with
    | none => 9/10
    | some e =>
      let scores : List ℚ :=
        (match e.components with
          | some n => if 0 < n then [min ((componentCount : ℚ) / n) 1] else []
          | none => []) ++
        (match e.connections with
          | some n => if 0 < n then [min ((connectionCount : ℚ) / n) 1] else []
          | none => [])
      if scores = [] then 9/10 else scores.sum / scores.length
  else 9/10

/- ------------------------------------------------------------------ -/
/- Recognition-adapter boundary and extraction payloads                -/
/- ------------------------------------------------------------------ -/

/-- Per-page title-block metadata as normalised by
gemini_service.detect_all_page_numbers (lines 415-434). -/
structure MetaFields where
  schematicPageNumber : Option Int
  schematicTotal : Option Int
  dwgNo : Option String
  drawingTitle : Option String
  confidence : Option ℚ
  rawText : Option String
deriving DecidableEq, Repr

/-- The all-null metadata entry used by both fallback paths. -/
def allNullMeta : MetaFields :=
  { schematicPageNumber := none, schematicTotal := none, dwgNo := none,
    drawingTitle := none, confidence := none, rawText := none }

/-- Outcome of the batched page-metadata detection call as seen by the
orchestrator: a normal return maps every requested position to a metadata dict
(possibly with all-null fields); the adapter's own catch-all (gemini_service
lines 439-442) maps every position to Python None instead; a raise (possible
before the adapter's try, e.g. from get_file) escapes to the orchestrator. -/
inductive DetectBehavior where
  | ok (metaFor : Int → MetaFields)
  | fallbackNone
  | raised (msg : String)

/-- One component entry of the structured extraction payload; only the fields
the orchestrator persists into modelled columns are kept. -/
structure CompData where
  mark : Option String
  x : Option ℚ
  y : Option ℚ
deriving DecidableEq, Repr

/-- One connection entry of the payload. -/
structure ConnData where
  fromComponentMark : Option String
  toComponentMark : Option String
  isExternal : Option Bool
deriving DecidableEq, Repr

/-- One wire-label entry of the payload. -/
structure WLData where
  label : Option String
deriving DecidableEq, Repr

/-- One continuation entry of the payload. -/
structure ContData where
  fromComponentMark : Option String
  toPageHint : Option String
  direction : Option String
deriving DecidableEq, Repr

/-- The structured payload returned by one extract_page call. -/
structure PagePayload where
  components : List CompData
  connections : List ConnData
  wireLabels : List WLData
  continuations : List ContData
deriving Repr

/-- The external collaborators of one run: the upload call, the context-page
text extraction, the batched metadata detection, the per-page extraction call
(already past the adapter's internal retries: an error here means retries were
exhausted), and the PDF page-dimension query.  PDFProcessor construction is
assumed to succeed; its failure would take the same fatal path as a failing
context extraction. -/
structure Oracle where
  uploadResult : Except String String
  contextResult : Except String String
  detect : DetectBehavior
  extractPage : Int → Except String PagePayload
  pageDims : Int → Except String (ℚ × ℚ)

/- ------------------------------------------------------------------ -/
/- Event stream                                                        -/
/- ------------------------------------------------------------------ -/

/-- One entry of the page_mapping event payload (extraction_service lines
197-207). -/
structure MappingEntry where
  pdfPageIndex : Int
  schematicPageNumber : Option Int
  schematicTotal : Option Int
  dwgNo : Option String
  drawingTitle : Option String
  confidence : Option ℚ
  rawText : Option String
deriving DecidableEq, Repr

/-- The data payload of each emitted event; record events carry the fields the
claims inspect. -/
inductive EventData where
  | progressStarting (pagesTotal pagesProcessed : Nat)
  | progressUploading
  | progressDetecting (nPages : Nat)
  | pageMappingData (entries : List MappingEntry)
  | progressExtracting (currentPage : Int) (schematicPage : Option Int)
      (pagesTotal pagesProcessed percent : Nat)
  | progressCancelled
  | componentCreated (id : Nat) (mark : String) (pdfPageIndex : Int)
  | connectionCreated (id : Nat) (fromMark toMark : Option String) (pdfPageIndex : Int)
  | wireLabelCreated (id : Nat) (label : String) (pdfPageIndex : Int)
  | continuationCreated (id : Nat) (fromMark toPageHint direction : Option String)
  | pageError (page : Int) (message : String)
  | fatalError (message : String)
  | completeData (pagesProcessed totalComponents totalConnections totalWireLabels : Nat)
deriving DecidableEq, Repr

/-- The event type string of each payload, mirroring the ExtractionEvent
constants. -/
def eventTypeOf : EventData → String
  | .progressStarting _ _ => "progress"
  | .progressUploading => "progress"
  | .progressDetecting _ => "progress"
  | .pageMappingData _ => "page_mapping"
  | .progressExtracting _ _ _ _ _ => "progress"
  | .progressCancelled => "progress"
  | .componentCreated _ _ _ => "component"
  | .connectionCreated _ _ _ _ => "connection"
  | .wireLabelCreated _ _ _ => "wire_label"
  | .continuationCreated _ _ _ _ => "continuation"
  | .pageError _ _ => "error"
  | .fatalError _ => "error"
  | .completeData _ _ _ _ => "complete"

/-- One streamed ExtractionResult (timestamp omitted). -/
structure Event where
  etype : String
  data : EventData
  seq : Nat
  fileId : Nat
deriving DecidableEq, Repr

/-- _emit (lines 421-434): increment the per-call sequence counter and stamp
the event with it. -/
def emitEv (seq : Nat) (fileId : Nat) (d : EventData) : Event × Nat :=
  ({ etype := eventTypeOf d, data := d, seq := seq + 1, fileId := fileId }, seq + 1)

/- ------------------------------------------------------------------ -/
/- Extraction orchestrator (extraction_service.extract_schematic)      -/
/- ------------------------------------------------------------------ -/

/-- Helper for pyDedup: keep elements not yet seen. -/
def pyDedupAux (seen : List Int) : List Int → List Int
  | [] => []
  | i :: rest =>
    if seen.contains i then pyDedupAux seen rest
    else i :: pyDedupAux (i :: seen) rest

/-- Python dict key order for a dict built by inserting the elements of a list
in order: first occurrence wins, insertion order kept. -/
def pyDedup (l : List Int) : List Int := pyDedupAux [] l

/-- The page_mapping dict the orchestrator works with (lines 160-175 plus the
adapter contract): one entry per distinct requested position; a normal adapter
return supplies a metadata dict per position, the adapter-internal fallback
supplies Python None per position, and an adapter raise is caught by the
orchestrator (lines 163-175) which builds all-null dicts itself. -/
def detectMapping (d : DetectBehavior) (pageIndices : List Int) :
    List (Int × Option MetaFields) :=
  match d with
  | .ok f => (pyDedup pageIndices).map (fun i => (i, some (f i)))
  | .fallbackNone => (pyDedup pageIndices).map (fun i => (i, none))
  | .raised _ => (pyDedup pageIndices).map (fun i => (i, some allNullMeta))

/-- One entry of the page_mapping event payload (lines 198-207): a Python None
metadata value contributes all-null fields. -/
def mkMappingEntry (e : Int × Option MetaFields) : MappingEntry :=
  match e.2 with
  | some m =>
    { pdfPageIndex := e.1, schematicPageNumber := m.schematicPageNumber,
      schematicTotal := m.schematicTotal, dwgNo := m.dwgNo,
      drawingTitle := m.drawingTitle, confidence := m.confidence,
      rawText := m.rawText }
  | none =>
    { pdfPageIndex := e.1, schematicPageNumber := none, schematicTotal := none,
      dwgNo := none, drawingTitle := none, confidence := none, rawText := none }

/-- How one page-processing attempt ended: the whole page committed; the
failure was demoted to an ExtractionError row plus an error event; or an
exception escaped even the error handler (a commit after a failed flush). -/
inductive PageKind where
  | success
  | handledError (msg : String)
  | escalated (msg : String)
deriving DecidableEq, Repr

/-- State after one page-processing attempt: the session, the sequence
counter, the events yielded during the attempt, and how it ended. -/
structure PageRun where
  sess : Session
  seq : Nat
  events : List Event
  kind : PageKind
deriving Repr

/-- The orchestrator's per-page except block (lines 262-276): persist an
ExtractionError row of category extraction_error and emit an error event; if
the commit itself raises (the session was poisoned by a failed flush), the
exception escapes the handler instead. -/
def pageFailure (fileId : Nat) (idx : Int) (msg : String) (s : Session)
    (seq : Nat) (evs : List Event) : PageRun :=
  let err : ExtractionErrorRec :=
    { fileId := fileId, pdfPageIndex := some idx,
      errorType := "extraction_error", errorMessage := msg }
  let s1 := { s with pendingErrors := s.pendingErrors ++ [err] }
  match s1.commit with
  | some s2 =>
    let (ev, seq1) := emitEv seq fileId (.pageError idx msg)
    { sess := s2, seq := seq1, events := evs ++ [ev], kind := .handledError msg }
  | none =>
    { sess := s1, seq := seq, events := evs,
      kind := .escalated "PendingRollbackError" }

/-- The component loop of _extract_page (lines 335-356): create and flush each
component (a missing mark defaults to UNKNOWN) and emit its event; a flush
failure aborts the loop with the IntegrityError message. -/
def addComponents (fileId : Nat) (idx : Int) (schemNum : Option Int) :
    List CompData → Session → Nat → List Event →
    Session × Nat × List Event × Option String
  | [], s, seq, evs => (s, seq, evs, none)
  | c :: rest, s, seq, evs =>
    let mark := c.mark.getD "UNKNOWN"
    match s.addComponentFlush fileId mark idx schemNum c.x c.y with
    | (s1, some cid) =>
      let (ev, seq1) := emitEv seq fileId (.componentCreated cid mark idx)
      addComponents fileId idx schemNum rest s1 seq1 (evs ++ [ev])
    | (s1, none) =>
      (s1, seq, evs, some "IntegrityError: UNIQUE constraint failed on components (schematic_file_id, mark, pdf_page_index)")

/-- The connection loop of _extract_page (lines 359-378). -/
def addConnections (fileId : Nat) (idx : Int) :
    List ConnData → Session → Nat → List Event → Session × Nat × List Event
  | [], s, seq, evs => (s, seq, evs)
  | c :: rest, s, seq, evs =>
    let (s1, cid) := s.addConnectionFlush fileId c.fromComponentMark
      c.toComponentMark idx (c.isExternal.getD false)
    let (ev, seq1) := emitEv seq fileId
      (.connectionCreated cid c.fromComponentMark c.toComponentMark idx)
    addConnections fileId idx rest s1 seq1 (evs ++ [ev])

/-- The wire-label loop of _extract_page (lines 381-396); a missing label
defaults to the question-mark sentinel. -/
def addWireLabels (fileId : Nat) (idx : Int) :
    List WLData → Session → Nat → List Event → Session × Nat × List Event
  | [], s, seq, evs => (s, seq, evs)
  | c :: rest, s, seq, evs =>
    let label := c.label.getD "?"
    let (s1, wid) := s.addWireLabelFlush fileId label idx
    let (ev, seq1) := emitEv seq fileId (.wireLabelCreated wid label idx)
    addWireLabels fileId idx rest s1 seq1 (evs ++ [ev])

/-- The continuation loop of _extract_page (lines 399-417). -/
def addContinuations (fileId : Nat) (idx : Int) :
    List ContData → Session → Nat → List Event → Session × Nat × List Event
  | [], s, seq, evs => (s, seq, evs)
  | c :: rest, s, seq, evs =>
    let (s1, cid) := s.addContinuationFlush fileId c.fromComponentMark idx
      c.toPageHint c.direction
    let (ev, seq1) := emitEv seq fileId
      (.continuationCreated cid c.fromComponentMark c.toPageHint c.direction)
    addContinuations fileId idx rest s1 seq1 (evs ++ [ev])

/-- One page attempt: the extract_page call, then _extract_page's four record
loops and its single commit (line 419), wrapped in the orchestrator's per-page
try/except.  Any failure (the adapter call raising, a flush raising partway, or
the final commit raising) lands in pageFailure. -/
def processPage (o : Oracle) (fileId : Nat) (idx : Int)
    (schemNum : Option Int) (s : Session) (seq : Nat) : PageRun :=
  match o.extractPage idx with
  | .error e => pageFailure fileId idx e s seq []
  | .ok payload =>
    match addComponents fileId idx schemNum payload.components s seq [] with
    | (s1, seq1, evs1, some msg) => pageFailure fileId idx msg s1 seq1 evs1
    | (s1, seq1, evs1, none) =>
      let (s2, seq2, evs2) := addConnections fileId idx payload.connections s1 seq1 evs1
      let (s3, seq3, evs3) := addWireLabels fileId idx payload.wireLabels s2 seq2 evs2
      let (s4, seq4, evs4) :=
        addContinuations fileId idx payload.continuations s3 seq3 evs3
      match s4.commit with
      | some s5 => { sess := s5, seq := seq4, events := evs4, kind := .success }
      | none => pageFailure fileId idx "PendingRollbackError" s4 seq4 evs4

/-- Whether the cooperative cancellation flag is observed set at the top of
loop iteration i: the flag is monotone once set, so a request first visible at
iteration k is seen at every later check too. -/
def isCancelledAt (cancelFrom : Option Nat) (i : Nat) : Bool :=
  match cancelFrom with
  | some k => decide (k ≤ i)
  | none => false

/-- Mark the first SchematicPage row matching (file, position) as processed
(lines 251-256 use .first() on the query). -/
def setFirstProcessed : List PageRec → Nat → Int → List PageRec
  | [], _, _ => []
  | p :: rest, fileId, idx =>
    if p.fileId == fileId && p.pdfPageIndex == idx then
      { p with isProcessed := true } :: rest
    else p :: setFirstProcessed rest fileId idx

/-- How the per-page loop ended. -/
inductive LoopExit where
  | finished
  | cancelledStop
  | escalatedErr (msg : String)
deriving DecidableEq, Repr

/-- State at loop exit. -/
structure LoopResult where
  sess : Session
  seq : Nat
  events : List Event
  pagesProcessed : Nat
  exit : LoopExit
deriving Repr

/-- The sequential page loop (lines 213-276): cancellation check at the top of
each iteration, progress event, page attempt, then on success the
processed-flag update and counter commit, on handled failure continuation with
the counter untouched.  A success-path commit is issued on a clean session
(processPage succeeded), so it cannot raise; the totality of the model still
covers the poisoned branch via escalation. -/
def pagesLoop (o : Oracle) (cancelFrom : Option Nat) (fileId : Nat)
    (mapping : List (Int × Option MetaFields)) (total : Nat) :
    List Int → Nat → Nat → Session → Nat → List Event → LoopResult
  | [], _, pp, s, seq, evs =>
    { sess := s, seq := seq, events := evs, pagesProcessed := pp, exit := .finished }
  | idx :: rest, i, pp, s, seq, evs =>
    if isCancelledAt cancelFrom i then
      let (ev, seq1) := emitEv seq fileId .progressCancelled
      let s1 := { s with dirtyDoc := { s.dirtyDoc with extractionStatus := .cancelled } }
      match s1.commit with
      | some s2 =>
        { sess := s2, seq := seq1, events := evs ++ [ev], pagesProcessed := pp,
          exit := .cancelledStop }
      | none =>
        { sess := s1, seq := seq1, events := evs ++ [ev], pagesProcessed := pp,
          exit := .escalatedErr "PendingRollbackError" }
    else
      let meta := (mapping.lookup idx).getD none
      let schemNum := meta.bind (fun m => m.schematicPageNumber)
      let (ev, seq1) := emitEv seq fileId
        (.progressExtracting idx schemNum total pp (pp * 100 / total))
      let r := processPage o fileId idx schemNum s seq1
      match r.kind with
      | .success =>
        let s1 := { r.sess with committed :=
          { r.sess.committed with
              pages := setFirstProcessed r.sess.committed.pages fileId idx } }
        let s2 := { s1 with dirtyDoc :=
          { s1.dirtyDoc with totalPagesProcessed := pp + 1 } }
        match s2.commit with
        | some s3 =>
          pagesLoop o cancelFrom fileId mapping total rest (i + 1) (pp + 1) s3
            r.seq (evs ++ [ev] ++ r.events)
        | none =>
          { sess := s2, seq := r.seq, events := evs ++ [ev] ++ r.events,
            pagesProcessed := pp + 1, exit := .escalatedErr "PendingRollbackError" }
      | .handledError _ =>
        pagesLoop o cancelFrom fileId mapping total rest (i + 1) pp r.sess r.seq
          (evs ++ [ev] ++ r.events)
      | .escalated msg =>
        { sess := r.sess, seq := r.seq, events := evs ++ [ev] ++ r.events,
          pagesProcessed := pp, exit := .escalatedErr msg }

/-- Whether the generator ran to completion or re-raised an exception to its
consumer. -/
inductive Outcome where
  | normal
  | raised (msg : String)
deriving DecidableEq, Repr

/-- Everything observable about one exhausted run of the generator: the events
it yielded, the final session, and whether it raised. -/
structure RunResult where
  events : List Event
  sess : Session
  outcome : Outcome
deriving Repr

/-- The service fields as they stand when the generator is created; lines
112-113 reset both before anything else happens, so a cancel() issued before
the first advance is discarded. -/
structure ServiceState where
  seqCounter : Nat
  cancelled : Bool
deriving DecidableEq, Repr

/-- The pipeline-level except block (lines 302-310): mark the document failed,
commit, emit a final error event and re-raise; if that commit itself raises,
the exception propagates with no further event and the failed status never
becomes durable. -/
def fatalExit (fileId : Nat) (s : Session) (seq : Nat) (evs : List Event)
    (msg : String) : RunResult :=
  let s1 := { s with dirtyDoc := { s.dirtyDoc with extractionStatus := .failed } }
  match s1.commit with
  | some s2 =>
    let (ev, _) := emitEv seq fileId (.fatalError msg)
    { events := evs ++ [ev], sess := s2, outcome := .raised msg }
  | none => { events := evs, sess := s1, outcome := .raised msg }

/-- extract_schematic (lines 95-310), fully consumed.  The svc argument is the
service state at generator creation; the body begins by resetting the sequence
counter and the cancellation flag (lines 112-113) and never reads svc, which is
exactly the point of claim C10.  In-run cancellation is given by cancelFrom,
the first loop iteration at whose top check the flag is observed set.

The page-mapping persistence step (lines 177-194) constructs
SchematicPage(..., schematic_total=..., dwg_no=..., drawing_title=...), but
models.SchematicPage declares none of those three columns, so the SQLAlchemy
declarative constructor raises TypeError on the first entry; with a nonempty
selection the run therefore always takes the fatal path there (after the
per-page dimension query, which may itself raise first). -/
def extractSchematic (o : Oracle) (cancelFrom : Option Nat) (fileId : Nat)
    (pdfPageIndices : List Int) (s : Session) (svc : ServiceState) : RunResult :=
  let _ := svc
  let s1 := { s with dirtyDoc := { s.dirtyDoc with extractionStatus := .inProgress } }
  match s1.commit with
  | none => { events := [], sess := s1, outcome := .raised "PendingRollbackError" }
  | some s2 =>
    let (ev1, seq1) := emitEv 0 fileId
      (.progressStarting pdfPageIndices.length 0)
    let (ev2, seq2) := emitEv seq1 fileId .progressUploading
    match o.uploadResult with
    | .error e => fatalExit fileId s2 seq2 [ev1, ev2] e
    | .ok uri =>
      let s3 := { s2 with dirtyDoc := { s2.dirtyDoc with geminiFileUri := some uri } }
      match s3.commit with
      | none => fatalExit fileId s3 seq2 [ev1, ev2] "PendingRollbackError"
      | some s4 =>
        match o.contextResult with
        | .error e => fatalExit fileId s4 seq2 [ev1, ev2] e
        | .ok _ =>
          let (ev3, seq3) := emitEv seq2 fileId
            (.progressDetecting pdfPageIndices.length)
          let mapping := detectMapping o.detect pdfPageIndices
          match mapping with
          | (idx0, _) :: _ =>
            (match o.pageDims idx0 with
             | .error e => fatalExit fileId s4 seq3 [ev1, ev2, ev3] e
             | .ok _ =>
               fatalExit fileId s4 seq3 [ev1, ev2, ev3]
                 "TypeError: schematic_total is an invalid keyword argument for SchematicPage")
          | [] =>
            let (ev4, seq4) := emitEv seq3 fileId
              (.pageMappingData (mapping.map mkMappingEntry))
            let lr := pagesLoop o cancelFrom fileId mapping
              pdfPageIndices.length pdfPageIndices 0 0 s4 seq4 []
            match lr.exit with
            | .cancelledStop =>
              { events := [ev1, ev2, ev3, ev4] ++ lr.events, sess := lr.sess,
                outcome := .normal }
            | .escalatedErr msg =>
              fatalExit fileId lr.sess lr.seq ([ev1, ev2, ev3, ev4] ++ lr.events) msg
            | .finished =>
              let s5 := { lr.sess with dirtyDoc :=
                { lr.sess.dirtyDoc with extractionStatus := .completed } }
              match s5.commit with
              | none =>
                fatalExit fileId s5 lr.seq ([ev1, ev2, ev3, ev4] ++ lr.events)
                  "PendingRollbackError"
              | some s6 =>
                let tc := (s6.committed.components.filter
                    (fun c => c.fileId == fileId)).length
                let tn := (s6.committed.connections.filter
                    (fun c => c.fileId == fileId)).length
                let tw := (s6.committed.wireLabels.filter
                    (fun c => c.fileId == fileId)).length
                let (ev5, _) := emitEv lr.seq fileId
                  (.completeData lr.pagesProcessed tc tn tw)
                { events := [ev1, ev2, ev3, ev4] ++ lr.events ++ [ev5],
                  sess := s6, outcome := .normal }

/- ------------------------------------------------------------------ -/
/- Concrete fixtures                                                   -/
/- ------------------------------------------------------------------ -/

/-- An empty record store. -/
def emptyStore : Store := ⟨[], [], [], [], [], []⟩

/-- A freshly uploaded document row. -/
def freshDoc : DocState :=
  { extractionStatus := .pending, totalPagesProcessed := 0, geminiFileUri := none }

/-- A clean session over an empty store. -/
def emptySession : Session :=
  { committed := emptyStore, committedDoc := freshDoc, dirtyDoc := freshDoc,
    pendingComponents := [], pendingConnections := [], pendingWireLabels := [],
    pendingContinuations := [], pendingErrors := [], poisoned := false, nextId := 1 }

/-- A small well-formed extraction payload. -/
def okPayload : PagePayload :=
  { components := [{ mark := some "K1", x := some 10, y := some 20 }],
    connections := [{ fromComponentMark := some "K1", toComponentMark := some "K2",
                      isExternal := none }],
    wireLabels := [{ label := some "W1" }],
    continuations := [] }

/-- Collaborators that all behave: upload and context extraction succeed,
metadata detection returns all-null dicts, every page extraction succeeds. -/
def oracleAllOk : Oracle :=
  { uploadResult := .ok "files/abc", contextResult := .ok "ctx",
    detect := .ok (fun _ => allNullMeta),
    extractPage := fun _ => .ok okPayload,
    pageDims := fun _ => .ok (842, 595) }

/-- Same, except the extraction call for page position 1 exhausts its retries
and raises. -/
def oracleOneFail : Oracle :=
  { oracleAllOk with
    extractPage := fun i => if i == 1 then .error "503 UNAVAILABLE" else .ok okPayload }

/-- Same, except the batched metadata detection fails inside the adapter,
which degrades to per-position Python None entries. -/
def oracleDetectDown : Oracle := { oracleAllOk with detect := .fallbackNone }

/-- Same, except the metadata detection call raises out of the adapter and the
orchestrator's own except-branch builds the all-null mapping. -/
def oracleDetectRaise : Oracle := { oracleAllOk with detect := .raised "504 DEADLINE" }

/-- A payload whose two components carry the same mark: the second flush
violates uq_component_mark_page partway through the page. -/
def dupPayload : PagePayload :=
  { components := [{ mark := some "A", x := none, y := none },
                   { mark := some "A", x := none, y := none }],
    connections := [], wireLabels := [], continuations := [] }

/-- Collaborators whose page extraction returns the duplicate-mark payload. -/
def oracleDup : Oracle := { oracleAllOk with extractPage := fun _ => .ok dupPayload }

/-- Components marked X on page positions 0 and 2 of document 1, and one
connection on page position 5 referencing mark X: the resolver tie-break
fixture from the spec. -/
def resolverStore : Store :=
  { emptyStore with
    components :=
      [{ id := 1, fileId := 1, mark := "X", pdfPageIndex := 0,
         schematicPageNumber := none, x := none, y := none },
       { id := 2, fileId := 1, mark := "X", pdfPageIndex := 2,
         schematicPageNumber := none, x := none, y := none }],
    connections :=
      [{ id := 10, fileId := 1, fromComponentId := none, toComponentId := none,
         fromComponentMark := some "X", toComponentMark := none,
         pdfPageIndex := 5, isExternal := false }] }

/-- A component whose mark is the empty string on page 5 of document 1, and a
connection on the same page whose from mark is non-null but empty: the
page-scoped key (empty mark, page 5) has a match, yet Python truthiness makes
the resolver skip the connection entirely. -/
def emptyMarkStore : Store :=
  { emptyStore with
    components :=
      [{ id := 7, fileId := 1, mark := "", pdfPageIndex := 5,
         schematicPageNumber := none, x := none, y := none }],
    connections :=
      [{ id := 11, fileId := 1, fromComponentId := none, toComponentId := none,
         fromComponentMark := some "", toComponentMark := none,
         pdfPageIndex := 5, isExternal := false }] }

/-- Four components and one connection on page 0 of document 1: with expected
counts of two components and two connections the raw ratios are 2 and 1/2. -/
def validationStore : Store :=
  { emptyStore with
    components :=
      [{ id := 1, fileId := 1, mark := "K1", pdfPageIndex := 0,
         schematicPageNumber := none, x := none, y := none },
       { id := 2, fileId := 1, mark := "K2", pdfPageIndex := 0,
         schematicPageNumber := none, x := none, y := none },
       { id := 3, fileId := 1, mark := "K3", pdfPageIndex := 0,
         schematicPageNumber := none, x := none, y := none },
       { id := 4, fileId := 1, mark := "K4", pdfPageIndex := 0,
         schematicPageNumber := none, x := none, y := none }],
    connections :=
      [{ id := 5, fileId := 1, fromComponentId := none, toComponentId := none,
         fromComponentMark := some "K1", toComponentMark := some "K2",
         pdfPageIndex := 0, isExternal := false }] }

/- ------------------------------------------------------------------ -/
/- Claim theorems                                                      -/
/- ------------------------------------------------------------------ -/

/-- C1: the claim expects a run with one failing page out of two to end
completed, with exactly one ExtractionError row and pages_processed = 1.  The
code instead raises TypeError while persisting the page-mapping rows (the
SchematicPage constructor is handed the undeclared schematic_total, dwg_no and
drawing_title kwargs), so the run ends with persisted status failed, zero
ExtractionError rows, a pages_processed counter of 0, and no complete event. -/
theorem oneFailingPage_run_aborts_at_page_persistence :
    (extractSchematic oracleOneFail none 1 [0, 1] emptySession
        ⟨0, false⟩).sess.committedDoc.extractionStatus = .failed ∧
    (extractSchematic oracleOneFail none 1 [0, 1] emptySession
        ⟨0, false⟩).sess.committed.errors = [] ∧
    (extractSchematic oracleOneFail none 1 [0, 1] emptySession
        ⟨0, false⟩).sess.committedDoc.totalPagesProcessed = 0 ∧
    (extractSchematic oracleOneFail none 1 [0, 1] emptySession
        ⟨0, false⟩).events.filter (fun e => e.etype == "complete") = [] ∧
    (extractSchematic oracleOneFail none 1 [0, 1] emptySession ⟨0, false⟩).outcome =
      .raised "TypeError: schematic_total is an invalid keyword argument for SchematicPage" := by
  decide

/-- C2: the claim expects an all-successful run over the MVP selection [6, 7, 8]
to emit exactly one complete event whose counts match the store and whose
pages_processed equals 3.  The code never reaches the page loop: it raises
TypeError at page-mapping persistence, emits no complete event, stores no
records, and leaves the document failed with pages_processed 0. -/
theorem allPagesSucceed_run_emits_no_complete_event :
    (extractSchematic oracleAllOk none 1 [6, 7, 8] emptySession
        ⟨0, false⟩).events.filter (fun e => e.etype == "complete") = [] ∧
    (extractSchematic oracleAllOk none 1 [6, 7, 8] emptySession
        ⟨0, false⟩).sess.committedDoc.extractionStatus = .failed ∧
    (extractSchematic oracleAllOk none 1 [6, 7, 8] emptySession
        ⟨0, false⟩).sess.committed.components = [] ∧
    (extractSchematic oracleAllOk none 1 [6, 7, 8] emptySession
        ⟨0, false⟩).sess.committedDoc.totalPagesProcessed = 0 ∧
    (extractSchematic oracleAllOk none 1 [6, 7, 8] emptySession ⟨0, false⟩).outcome =
      .raised "TypeError: schematic_total is an invalid keyword argument for SchematicPage" := by
  decide

/-- C4: the claim expects a run whose metadata detection fails entirely to
still process every page and to create Page rows with all-null metadata at
confidence 0.5.  Under both failure modes (the adapter-internal fallback and
the adapter raise caught by the orchestrator) the run instead aborts with the
SchematicPage constructor TypeError: no Page row is created at all, no page is
processed, and the document ends failed. -/
theorem metadata_detection_failure_still_aborts_run :
    (extractSchematic oracleDetectDown none 1 [0] emptySession
        ⟨0, false⟩).sess.committed.pages = [] ∧
    (extractSchematic oracleDetectDown none 1 [0] emptySession
        ⟨0, false⟩).sess.committedDoc.extractionStatus = .failed ∧
    (extractSchematic oracleDetectDown none 1 [0] emptySession
        ⟨0, false⟩).sess.committedDoc.totalPagesProcessed = 0 ∧
    (extractSchematic oracleDetectRaise none 1 [0] emptySession
        ⟨0, false⟩).sess.committed.pages = [] ∧
    (extractSchematic oracleDetectRaise none 1 [0] emptySession
        ⟨0, false⟩).sess.committedDoc.extractionStatus = .failed ∧
    (extractSchematic oracleDetectRaise none 1 [0] emptySession ⟨0, false⟩).outcome =
      .raised "TypeError: schematic_total is an invalid keyword argument for SchematicPage" := by
  decide

/-- C10: the reset at the top of extract_schematic (lines 112-113) does discard
a cancel() issued before the generator is first advanced - the run is
identical to one started with a clean flag - but the claim's consequence that
all selected pages are then processed fails: the run aborts at page-mapping
persistence with zero pages processed and status failed, not completed. -/
theorem preAdvance_cancel_discarded_but_run_fails :
    extractSchematic oracleAllOk none 1 [0] emptySession ⟨5, true⟩ =
      extractSchematic oracleAllOk none 1 [0] emptySession ⟨0, false⟩ ∧
    (extractSchematic oracleAllOk none 1 [0] emptySession
        ⟨5, true⟩).sess.committedDoc.extractionStatus = .failed ∧
    (extractSchematic oracleAllOk none 1 [0] emptySession
        ⟨5, true⟩).sess.committedDoc.totalPagesProcessed = 0 := by
  exact ⟨rfl, by decide, by decide⟩

/- ------------------------------------------------------------------ -/
/- Helper lemmas                                                       -/
/- ------------------------------------------------------------------ -/

/-- The component loop only touches the pending-component list, the id counter
and the poisoned flag; on a clean pass it stays unpoisoned and pends one row
per payload entry, and any failure leaves the session poisoned. -/
theorem addComponents_spec (fid : Nat) (idx : Int) (sn : Option Int) :
    ∀ (cs : List CompData) (s : Session) (seq : Nat) (evs : List Event),
      (addComponents fid idx sn cs s seq evs).1.committed = s.committed ∧
      (addComponents fid idx sn cs s seq evs).1.committedDoc = s.committedDoc ∧
      (addComponents fid idx sn cs s seq evs).1.dirtyDoc = s.dirtyDoc ∧
      (addComponents fid idx sn cs s seq evs).1.pendingConnections = s.pendingConnections ∧
      (addComponents fid idx sn cs s seq evs).1.pendingWireLabels = s.pendingWireLabels ∧
      (addComponents fid idx sn cs s seq evs).1.pendingContinuations = s.pendingContinuations ∧
      (addComponents fid idx sn cs s seq evs).1.pendingErrors = s.pendingErrors ∧
      ((addComponents fid idx sn cs s seq evs).2.2.2 = none →
        (addComponents fid idx sn cs s seq evs).1.poisoned = s.poisoned ∧
        (addComponents fid idx sn cs s seq evs).1.pendingComponents.length
          = s.pendingComponents.length + cs.length) ∧
      ((addComponents fid idx sn cs s seq evs).2.2.2 ≠ none →
        (addComponents fid idx sn cs s seq evs).1.poisoned = true) := by
  intro cs
  induction cs with
  | nil => intro s seq evs; simp [addComponents]
  | cons c rest ih =>
    intro s seq evs
    cases hdup : (s.committed.components ++ s.pendingComponents).any
        (fun k => k.fileId == fid && k.mark == (c.mark.getD "UNKNOWN") &&
          k.pdfPageIndex == idx) with
    | true => simp [addComponents, Session.addComponentFlush, hdup]
    | false =>
      have hstep : addComponents fid idx sn (c :: rest) s seq evs =
          addComponents fid idx sn rest
            { s with
              pendingComponents := s.pendingComponents ++
                [{ id := s.nextId, fileId := fid, mark := c.mark.getD "UNKNOWN",
                   pdfPageIndex := idx, schematicPageNumber := sn, x := c.x, y := c.y }]
              nextId := s.nextId + 1 } (seq + 1)
            (evs ++ [(emitEv seq fid
              (.componentCreated s.nextId (c.mark.getD "UNKNOWN") idx)).1]) := by
        simp [addComponents, Session.addComponentFlush, hdup, emitEv]
      rw [hstep]
      obtain ⟨i1, i2, i3, i4, i5, i6, i7, i8, i9⟩ := ih _ (seq + 1) _
      refine ⟨i1, i2, i3, i4, i5, i6, i7, ?_, i9⟩
      intro hnone
      obtain ⟨p1, p2⟩ := i8 hnone
      refine ⟨p1, ?_⟩
      simp only [List.length_append, List.length_cons, List.length_nil] at p2 ⊢
      omega

/-- The connection loop only extends the pending-connection list. -/
theorem addConnections_spec (fid : Nat) (idx : Int) :
    ∀ (cs : List ConnData) (s : Session) (seq : Nat) (evs : List Event),
      (addConnections fid idx cs s seq evs).1.committed = s.committed ∧
      (addConnections fid idx cs s seq evs).1.committedDoc = s.committedDoc ∧
      (addConnections fid idx cs s seq evs).1.dirtyDoc = s.dirtyDoc ∧
      (addConnections fid idx cs s seq evs).1.pendingComponents = s.pendingComponents ∧
      (addConnections fid idx cs s seq evs).1.pendingWireLabels = s.pendingWireLabels ∧
      (addConnections fid idx cs s seq evs).1.pendingContinuations = s.pendingContinuations ∧
      (addConnections fid idx cs s seq evs).1.pendingErrors = s.pendingErrors ∧
      (addConnections fid idx cs s seq evs).1.poisoned = s.poisoned ∧
      (addConnections fid idx cs s seq evs).1.pendingConnections.length
        = s.pendingConnections.length + cs.length := by
  intro cs
  induction cs with
  | nil => intro s seq evs; simp [addConnections]
  | cons c rest ih =>
    intro s seq evs
    have hstep : addConnections fid idx (c :: rest) s seq evs =
        addConnections fid idx rest
          { s with
            pendingConnections := s.pendingConnections ++
              [{ id := s.nextId, fileId := fid, fromComponentId := none,
                 toComponentId := none, fromComponentMark := c.fromComponentMark,
                 toComponentMark := c.toComponentMark, pdfPageIndex := idx,
                 isExternal := c.isExternal.getD false }]
            nextId := s.nextId + 1 } (seq + 1)
          (evs ++ [(emitEv seq fid
            (.connectionCreated s.nextId c.fromComponentMark c.toComponentMark idx)).1]) := by
      simp [addConnections, Session.addConnectionFlush, emitEv]
    rw [hstep]
    obtain ⟨i1, i2, i3, i4, i5, i6, i7, i8, i9⟩ := ih _ (seq + 1) _
    refine ⟨i1, i2, i3, i4, i5, i6, i7, i8, ?_⟩
    simp only [List.length_append, List.length_cons, List.length_nil] at i9 ⊢
    omega

/-- The wire-label loop only extends the pending-wire-label list. -/
theorem addWireLabels_spec (fid : Nat) (idx : Int) :
    ∀ (cs : List WLData) (s : Session) (seq : Nat) (evs : List Event),
      (addWireLabels fid idx cs s seq evs).1.committed = s.committed ∧
      (addWireLabels fid idx cs s seq evs).1.committedDoc = s.committedDoc ∧
      (addWireLabels fid idx cs s seq evs).1.dirtyDoc = s.dirtyDoc ∧
      (addWireLabels fid idx cs s seq evs).1.pendingComponents = s.pendingComponents ∧
      (addWireLabels fid idx cs s seq evs).1.pendingConnections = s.pendingConnections ∧
      (addWireLabels fid idx cs s seq evs).1.pendingContinuations = s.pendingContinuations ∧
      (addWireLabels fid idx cs s seq evs).1.pendingErrors = s.pendingErrors ∧
      (addWireLabels fid idx cs s seq evs).1.poisoned = s.poisoned ∧
      (addWireLabels fid idx cs s seq evs).1.pendingWireLabels.length
        = s.pendingWireLabels.length + cs.length := by
  intro cs
  induction cs with
  | nil => intro s seq evs; simp [addWireLabels]
  | cons c rest ih =>
    intro s seq evs
    have hstep : addWireLabels fid idx (c :: rest) s seq evs =
        addWireLabels fid idx rest
          { s with
            pendingWireLabels := s.pendingWireLabels ++
              [{ id := s.nextId, fileId := fid, label := c.label.getD "?",
                 pdfPageIndex := idx }]
            nextId := s.nextId + 1 } (seq + 1)
          (evs ++ [(emitEv seq fid
            (.wireLabelCreated s.nextId (c.label.getD "?") idx)).1]) := by
      simp [addWireLabels, Session.addWireLabelFlush, emitEv]
    rw [hstep]
    obtain ⟨i1, i2, i3, i4, i5, i6, i7, i8, i9⟩ := ih _ (seq + 1) _
    refine ⟨i1, i2, i3, i4, i5, i6, i7, i8, ?_⟩
    simp only [List.length_append, List.length_cons, List.length_nil] at i9 ⊢
    omega

/-- The continuation loop only extends the pending-continuation list. -/
theorem addContinuations_spec (fid : Nat) (idx : Int) :
    ∀ (cs : List ContData) (s : Session) (seq : Nat) (evs : List Event),
      (addContinuations fid idx cs s seq evs).1.committed = s.committed ∧
      (addContinuations fid idx cs s seq evs).1.committedDoc = s.committedDoc ∧
      (addContinuations fid idx cs s seq evs).1.dirtyDoc = s.dirtyDoc ∧
      (addContinuations fid idx cs s seq evs).1.pendingComponents = s.pendingComponents ∧
      (addContinuations fid idx cs s seq evs).1.pendingConnections = s.pendingConnections ∧
      (addContinuations fid idx cs s seq evs).1.pendingWireLabels = s.pendingWireLabels ∧
      (addContinuations fid idx cs s seq evs).1.pendingErrors = s.pendingErrors ∧
      (addContinuations fid idx cs s seq evs).1.poisoned = s.poisoned ∧
      (addContinuations fid idx cs s seq evs).1.pendingContinuations.length
        = s.pendingContinuations.length + cs.length := by
  intro cs
  induction cs with
  | nil => intro s seq evs; simp [addContinuations]
  | cons c rest ih =>
    intro s seq evs
    have hstep : addContinuations fid idx (c :: rest) s seq evs =
        addContinuations fid idx rest
          { s with
            pendingContinuations := s.pendingContinuations ++
              [{ id := s.nextId, fileId := fid,
                 fromComponentMark := c.fromComponentMark, pdfPageIndex := idx,
                 toPageHint := c.toPageHint, direction := c.direction,
                 isExternal := true }]
            nextId := s.nextId + 1 } (seq + 1)
          (evs ++ [(emitEv seq fid
            (.continuationCreated s.nextId c.fromComponentMark c.toPageHint c.direction)).1]) := by
      simp [addContinuations, Session.addContinuationFlush, emitEv]
    rw [hstep]
    obtain ⟨i1, i2, i3, i4, i5, i6, i7, i8, i9⟩ := ih _ (seq + 1) _
    refine ⟨i1, i2, i3, i4, i5, i6, i7, i8, ?_⟩
    simp only [List.length_append, List.length_cons, List.length_nil] at i9 ⊢
    omega

/-- One endpoint resolution is idempotent: a second pass recomputes the same
lookups and, where both miss, keeps the value the first pass kept. -/
theorem resolveOneSide_idem (pm : (String × Int) → Option Nat)
    (mm : String → Option Nat) (mo : Option String) (p : Int) (d : Option Nat) :
    resolveOneSide pm mm mo p (resolveOneSide pm mm mo p d)
      = resolveOneSide pm mm mo p d := by
  cases mo with
  | none => simp [resolveOneSide]
  | some m =>
    by_cases hm : m = ""
    · simp [resolveOneSide, hm]
    · cases hpm : pm (m, p) <;> cases hmm : mm m <;>
        simp [resolveOneSide, hm, hpm, hmm]

/-- Resolution rewrites only the identifier columns. -/
theorem resolveConn_fileId (pm : (String × Int) → Option Nat)
    (mm : String → Option Nat) (c : ConnectionRec) :
    (resolveConn pm mm c).fileId = c.fileId := rfl

/-- Resolving an already-resolved connection with the same lookups changes
nothing. -/
theorem resolveConn_idem (pm : (String × Int) → Option Nat)
    (mm : String → Option Nat) (c : ConnectionRec) :
    resolveConn pm mm (resolveConn pm mm c) = resolveConn pm mm c := by
  simp [resolveConn, resolveOneSide_idem]

/-- The page-scoped dict keeps the last writer: its lookup equals the first
match in the reversed component list. -/
theorem foldl_markToIdStep_pageMap (comps : List ComponentRec) :
    ∀ (init : ((String × Int) → Option Nat) × (String → Option Nat))
      (m : String) (p : Int),
      (comps.foldl markToIdStep init).1 (m, p) =
        match comps.reverse.find? (fun c => c.mark == m && c.pdfPageIndex == p) with
        | some c => some c.id
        | none => init.1 (m, p) := by
  induction comps with
  | nil => intro init m p; simp
  | cons a rest ih =>
    intro init m p
    rw [List.foldl_cons, ih]
    rw [List.reverse_cons, List.find?_append]
    cases hr : rest.reverse.find? (fun c => c.mark == m && c.pdfPageIndex == p) with
    | some c => simp
    | none =>
      simp only [Option.none_or]
      by_cases hma : (m, p) = (a.mark, a.pdfPageIndex)
      · have hpred : (a.mark == m && a.pdfPageIndex == p) = true := by
          have h1 : m = a.mark := congrArg Prod.fst hma
          have h2 : p = a.pdfPageIndex := congrArg Prod.snd hma
          simp [h1, h2]
        simp [List.find?, hpred, markToIdStep, hma]
      · have hpred : (a.mark == m && a.pdfPageIndex == p) = false := by
          rw [Bool.and_eq_false_iff]
          by_cases h1 : a.mark = m
          · right
            rw [beq_eq_false_iff_ne]
            intro h2
            exact hma (by rw [h1, h2])
          · left
            rw [beq_eq_false_iff_ne]
            exact h1
        simp [List.find?, hpred, markToIdStep, hma]

/-- A mark already bound in the mark-only dict is never overwritten. -/
theorem foldl_markToIdStep_markMap_stable (comps : List ComponentRec) :
    ∀ (init : ((String × Int) → Option Nat) × (String → Option Nat))
      (m : String) (i : Nat), init.2 m = some i →
      (comps.foldl markToIdStep init).2 m = some i := by
  induction comps with
  | nil => intro init m i h; simpa using h
  | cons a rest ih =>
    intro init m i h
    rw [List.foldl_cons]
    apply ih
    simp only [markToIdStep]
    by_cases hsome : (init.2 a.mark).isSome
    · simp [hsome, h]
    · simp only [hsome, if_false]
      by_cases hm : m = a.mark
      · rw [hm] at h
        rw [h] at hsome
        simp at hsome
      · simp [hm, h]

/-- The mark-only dict keeps the first writer: starting unbound, its lookup
equals the first component bearing the mark in iteration order. -/
theorem foldl_markToIdStep_markMap (comps : List ComponentRec) :
    ∀ (init : ((String × Int) → Option Nat) × (String → Option Nat))
      (m : String), init.2 m = none →
      (comps.foldl markToIdStep init).2 m =
        (comps.find? (fun c => c.mark == m)).map (fun c => c.id) := by
  induction comps with
  | nil => intro init m h; simpa using h
  | cons a rest ih =>
    intro init m h
    rw [List.foldl_cons]
    by_cases hm : a.mark = m
    · have hstep : (markToIdStep init a).2 m = some a.id := by
        simp only [markToIdStep]
        rw [hm, h]
        simp
      rw [foldl_markToIdStep_markMap_stable rest _ m a.id hstep]
      simp [List.find?, hm]
    · have hstep : (markToIdStep init a).2 m = none := by
        simp only [markToIdStep]
        by_cases hsome : (init.2 a.mark).isSome
        · simp [hsome, h]
        · simp only [hsome, if_false]
          have : ¬(m = a.mark) := fun hh => hm hh.symm
          simp [this, h]
      rw [ih _ m hstep]
      have hpred : (a.mark == m) = false := by
        rw [beq_eq_false_iff_ne]; exact hm
      simp [List.find?, hpred]

/-- C3 counterexample: with cancellation requested before the iteration for the
first selected page begins, the claim demands a final persisted status of
cancelled; the run instead ends failed (it aborts during page-mapping
persistence before the cancellation check is ever reached). -/
theorem cancelBeforePageK_status_counterexample :
    (extractSchematic oracleAllOk (some 0) 1 [0] emptySession
        ⟨0, false⟩).sess.committedDoc.extractionStatus ≠ .cancelled ∧
    (extractSchematic oracleAllOk (some 0) 1 [0] emptySession
        ⟨0, false⟩).sess.committedDoc.extractionStatus = .failed := by
  decide

/-- C3 amended: for any nonempty page selection - whenever the cancellation
flag is set, and indeed on every run - the generator raises during Page-row
persistence before the per-page loop: no Page row and no Component row is
created for any position, and the document's final persisted status is failed,
neither cancelled nor completed. -/
theorem nonemptySelection_run_fails_before_page_loop
    (o : Oracle) (cancelFrom : Option Nat) (fileId : Nat) (i : Int)
    (rest : List Int) (s : Session) (svc : ServiceState) (uri ctx : String)
    (hpo : s.poisoned = false) (hpc : s.pendingComponents = [])
    (hu : o.uploadResult = .ok uri) (hc : o.contextResult = .ok ctx) :
    (extractSchematic o cancelFrom fileId (i :: rest) s
        svc).sess.committedDoc.extractionStatus = .failed ∧
    (extractSchematic o cancelFrom fileId (i :: rest) s svc).sess.committed.pages
      = s.committed.pages ∧
    (extractSchematic o cancelFrom fileId (i :: rest) s svc).sess.committed.components
      = s.committed.components ∧
    ∃ msg, (extractSchematic o cancelFrom fileId (i :: rest) s svc).outcome
      = .raised msg := by
  cases hd : o.detect <;>
  cases hpd : o.pageDims i <;>
  simp [extractSchematic, Session.commit, fatalExit, emitEv, detectMapping,
    pyDedup, pyDedupAux, hpo, hpc, hu, hc, hd, hpd]

/-- C3 amended, witnessed at the claim's own scenario: cancellation requested
before the first iteration of a two-page run. -/
theorem nonemptySelection_run_fails_before_page_loop_witness :
    (emptySession.poisoned = false ∧ emptySession.pendingComponents = [] ∧
      oracleAllOk.uploadResult = .ok "files/abc" ∧
      oracleAllOk.contextResult = .ok "ctx") ∧
    ((extractSchematic oracleAllOk (some 0) 1 (0 :: [1]) emptySession
        ⟨0, false⟩).sess.committedDoc.extractionStatus = .failed ∧
      (extractSchematic oracleAllOk (some 0) 1 (0 :: [1]) emptySession
        ⟨0, false⟩).sess.committed.pages = emptySession.committed.pages ∧
      (extractSchematic oracleAllOk (some 0) 1 (0 :: [1]) emptySession
        ⟨0, false⟩).sess.committed.components = emptySession.committed.components ∧
      ∃ msg, (extractSchematic oracleAllOk (some 0) 1 (0 :: [1]) emptySession
        ⟨0, false⟩).outcome = .raised msg) :=
  ⟨⟨rfl, rfl, rfl, rfl⟩,
    nonemptySelection_run_fails_before_page_loop oracleAllOk (some 0) 1 0 [1]
      emptySession ⟨0, false⟩ "files/abc" "ctx" rfl rfl rfl rfl⟩

/-- C5: per-page writes are all-or-nothing.  From a quiescent session, if the
page attempt does not succeed - the adapter call raised, a flush raised
partway (poisoning the session so the error-handler's own commit raises), or
the final commit raised - then no component, connection, wire-label or
continuation row of that page reaches the committed store; if it succeeds, the
single commit at the end of _extract_page makes every record of the page's
payload durable at once. -/
theorem perPage_writes_all_or_nothing (o : Oracle) (fid : Nat) (idx : Int)
    (sn : Option Int) (s : Session) (seq : Nat) (hq : s.Quiescent) :
    ((processPage o fid idx sn s seq).kind ≠ .success →
      (processPage o fid idx sn s seq).sess.committed.components = s.committed.components ∧
      (processPage o fid idx sn s seq).sess.committed.connections = s.committed.connections ∧
      (processPage o fid idx sn s seq).sess.committed.wireLabels = s.committed.wireLabels ∧
      (processPage o fid idx sn s seq).sess.committed.continuations
        = s.committed.continuations) ∧
    (∀ p, o.extractPage idx = .ok p → (processPage o fid idx sn s seq).kind = .success →
      (processPage o fid idx sn s seq).sess.committed.components.length
        = s.committed.components.length + p.components.length ∧
      (processPage o fid idx sn s seq).sess.committed.connections.length
        = s.committed.connections.length + p.connections.length ∧
      (processPage o fid idx sn s seq).sess.committed.wireLabels.length
        = s.committed.wireLabels.length + p.wireLabels.length ∧
      (processPage o fid idx sn s seq).sess.committed.continuations.length
        = s.committed.continuations.length + p.continuations.length) := by
  obtain ⟨hpo, hq1, hq2, hq3, hq4, hq5⟩ := hq
  cases hx : o.extractPage idx with
  | error e =>
    constructor
    · intro _
      simp [processPage, hx, pageFailure, Session.commit, hpo, hq1, hq2, hq3, hq4, emitEv]
    · intro p hp _
      exact absurd hp (by simp)
  | ok p0 =>
    rcases hA : addComponents fid idx sn p0.components s seq [] with ⟨s1, seq1, evs1, msg⟩
    have aspec := addComponents_spec fid idx sn p0.components s seq []
    rw [hA] at aspec
    obtain ⟨a1, a2, a3, a4, a5, a6, a7, a8, a9⟩ := aspec
    replace a1 : s1.committed = s.committed := a1
    replace a4 : s1.pendingConnections = s.pendingConnections := a4
    replace a5 : s1.pendingWireLabels = s.pendingWireLabels := a5
    replace a6 : s1.pendingContinuations = s.pendingContinuations := a6
    replace a7 : s1.pendingErrors = s.pendingErrors := a7
    cases msg with
    | some m =>
      have hpois : s1.poisoned = true := a9 (by simp)
      constructor
      · intro _
        simp [processPage, hx, hA, pageFailure, Session.commit, hpois, a1]
      · intro p hp hk
        injection hp with hp1
        subst hp1
        simp [processPage, hx, hA, pageFailure, Session.commit, hpois] at hk
    | none =>
      have a8x := a8 rfl
      replace hpois1 : s1.poisoned = s.poisoned := a8x.1
      have hlen1 : s1.pendingComponents.length = p0.components.length := by
        have hh := a8x.2
        replace hh : s1.pendingComponents.length
            = s.pendingComponents.length + p0.components.length := hh
        rw [hq1] at hh
        simpa using hh
      rcases hB : addConnections fid idx p0.connections s1 seq1 evs1 with ⟨s2, seq2, evs2⟩
      have bspec := addConnections_spec fid idx p0.connections s1 seq1 evs1
      rw [hB] at bspec
      obtain ⟨b1, b2, b3, b4, b5, b6, b7, b8, b9⟩ := bspec
      replace b1 : s2.committed = s1.committed := b1
      replace b4 : s2.pendingComponents = s1.pendingComponents := b4
      replace b5 : s2.pendingWireLabels = s1.pendingWireLabels := b5
      replace b6 : s2.pendingContinuations = s1.pendingContinuations := b6
      replace b8 : s2.poisoned = s1.poisoned := b8
      replace b9 : s2.pendingConnections.length
          = s1.pendingConnections.length + p0.connections.length := b9
      rcases hC : addWireLabels fid idx p0.wireLabels s2 seq2 evs2 with ⟨s3, seq3, evs3⟩
      have cspec := addWireLabels_spec fid idx p0.wireLabels s2 seq2 evs2
      rw [hC] at cspec
      obtain ⟨c1, c2, c3, c4, c5, c6, c7, c8, c9⟩ := cspec
      replace c1 : s3.committed = s2.committed := c1
      replace c4 : s3.pendingComponents = s2.pendingComponents := c4
      replace c5 : s3.pendingConnections = s2.pendingConnections := c5
      replace c6 : s3.pendingContinuations = s2.pendingContinuations := c6
      replace c8 : s3.poisoned = s2.poisoned := c8
      replace c9 : s3.pendingWireLabels.length
          = s2.pendingWireLabels.length + p0.wireLabels.length := c9
      rcases hD : addContinuations fid idx p0.continuations s3 seq3 evs3 with ⟨s4, seq4, evs4⟩
      have dspec := addContinuations_spec fid idx p0.continuations s3 seq3 evs3
      rw [hD] at dspec
      obtain ⟨d1, d2, d3, d4, d5, d6, d7, d8, d9⟩ := dspec
      replace d1 : s4.committed = s3.committed := d1
      replace d4 : s4.pendingComponents = s3.pendingComponents := d4
      replace d5 : s4.pendingConnections = s3.pendingConnections := d5
      replace d6 : s4.pendingWireLabels = s3.pendingWireLabels := d6
      replace d8 : s4.poisoned = s3.poisoned := d8
      replace d9 : s4.pendingContinuations.length
          = s3.pendingContinuations.length + p0.continuations.length := d9
      have hpois4 : s4.poisoned = false := by rw [d8, c8, b8, hpois1, hpo]
      have hrun : processPage o fid idx sn s seq =
          { sess := { s4 with
              committed := { s4.committed with
                components := s4.committed.components ++ s4.pendingComponents
                connections := s4.committed.connections ++ s4.pendingConnections
                wireLabels := s4.committed.wireLabels ++ s4.pendingWireLabels
                continuations := s4.committed.continuations ++ s4.pendingContinuations
                errors := s4.committed.errors ++ s4.pendingErrors }
              committedDoc := s4.dirtyDoc
              pendingComponents := []
              pendingConnections := []
              pendingWireLabels := []
              pendingContinuations := []
              pendingErrors := [] },
            seq := seq4, events := evs4, kind := .success } := by
        simp [processPage, hx, hA, hB, hC, hD, Session.commit, hpois4]
      constructor
      · intro hk
        rw [hrun] at hk
        simp at hk
      · intro p hp _
        injection hp with hp1
        subst hp1
        rw [hrun]
        have e1 : s4.committed = s.committed := by rw [d1, c1, b1, a1]
        have e2 : s4.pendingComponents.length = p0.components.length := by
          rw [d4, c4, b4, hlen1]
        have e3 : s4.pendingConnections.length = p0.connections.length := by
          rw [d5, c5, b9, a4, hq2]
          simp
        have e4 : s4.pendingWireLabels.length = p0.wireLabels.length := by
          rw [d6, c9, b5, a5, hq3]
          simp
        have e5 : s4.pendingContinuations.length = p0.continuations.length := by
          rw [d9, c6, b6, a6, hq4]
          simp
        refine ⟨?_, ?_, ?_, ?_⟩ <;>
          simp [e1, List.length_append, e2, e3, e4, e5]

/-- C5 witnessed at a page whose payload repeats mark A, so the second flush
violates uq_component_mark_page partway through: the attempt does not succeed
and the committed store gains none of the page's records. -/
theorem perPage_writes_all_or_nothing_witness :
    emptySession.Quiescent ∧
    (((processPage oracleDup 1 0 none emptySession 0).kind ≠ .success →
      (processPage oracleDup 1 0 none emptySession 0).sess.committed.components
        = emptySession.committed.components ∧
      (processPage oracleDup 1 0 none emptySession 0).sess.committed.connections
        = emptySession.committed.connections ∧
      (processPage oracleDup 1 0 none emptySession 0).sess.committed.wireLabels
        = emptySession.committed.wireLabels ∧
      (processPage oracleDup 1 0 none emptySession 0).sess.committed.continuations
        = emptySession.committed.continuations) ∧
    (∀ p, oracleDup.extractPage 0 = .ok p →
      (processPage oracleDup 1 0 none emptySession 0).kind = .success →
      (processPage oracleDup 1 0 none emptySession 0).sess.committed.components.length
        = emptySession.committed.components.length + p.components.length ∧
      (processPage oracleDup 1 0 none emptySession 0).sess.committed.connections.length
        = emptySession.committed.connections.length + p.connections.length ∧
      (processPage oracleDup 1 0 none emptySession 0).sess.committed.wireLabels.length
        = emptySession.committed.wireLabels.length + p.wireLabels.length ∧
      (processPage oracleDup 1 0 none emptySession 0).sess.committed.continuations.length
        = emptySession.committed.continuations.length + p.continuations.length)) ∧
    (processPage oracleDup 1 0 none emptySession 0).kind ≠ .success :=
  ⟨⟨rfl, rfl, rfl, rfl, rfl, rfl⟩,
    perPage_writes_all_or_nothing oracleDup 1 0 none emptySession 0
      ⟨rfl, rfl, rfl, rfl, rfl, rfl⟩,
    by decide⟩

/-- C6: every run of the generator, whatever the collaborators do and wherever
it stops, yields events whose seq fields are exactly 1, 2, 3, ... in order:
the per-call counter is reset on entry and stamped by _emit on every yield. -/
theorem extract_event_seq_strictly_sequential (o : Oracle) (cancelFrom : Option Nat)
    (fileId : Nat) (ps : List Int) (s : Session) (svc : ServiceState) :
    (extractSchematic o cancelFrom fileId ps s svc).events.map (fun e => e.seq)
      = List.range' 1 (extractSchematic o cancelFrom fileId ps s svc).events.length := by
  cases hpo : s.poisoned with
  | true => simp [extractSchematic, Session.commit, hpo]
  | false =>
    cases hu : o.uploadResult with
    | error e =>
      simp [extractSchematic, Session.commit, fatalExit, emitEv, hpo, hu, List.range']
    | ok uri =>
      cases hc : o.contextResult with
      | error e =>
        simp [extractSchematic, Session.commit, fatalExit, emitEv, hpo, hu, hc,
          List.range']
      | ok ctx =>
        cases hps : ps with
        | nil =>
          cases hd : o.detect <;>
            simp [extractSchematic, Session.commit, fatalExit, emitEv, detectMapping,
              pyDedup, pyDedupAux, pagesLoop, hpo, hu, hc, hd, List.range']
        | cons i rest =>
          cases hd : o.detect <;> cases hpd : o.pageDims i <;>
            simp [extractSchematic, Session.commit, fatalExit, emitEv, detectMapping,
              pyDedup, pyDedupAux, hpo, hu, hc, hd, hpd, List.range']

/-- C7: the reference resolver is idempotent: with the component set unchanged,
a second resolve pass recomputes the same lookups and leaves every connection
row - indeed the whole store - exactly as the first pass did. -/
theorem resolveComponentReferences_idempotent (fid : Nat) (store : Store) :
    resolveComponentReferences fid (resolveComponentReferences fid store)
      = resolveComponentReferences fid store := by
  simp only [resolveComponentReferences]
  congr 1
  rw [List.map_map]
  apply List.map_congr_left
  intro c _
  by_cases hf : (c.fileId == fid) = true
  · simp only [Function.comp_apply, hf, if_pos]
    rw [show ((resolveConn
          (buildMarkToId (List.filter (fun c => c.fileId == fid) store.components)).1
          (buildMarkToId (List.filter (fun c => c.fileId == fid) store.components)).2
          c).fileId == fid) = true
        from by rw [resolveConn_fileId]; exact hf]
    simp only [if_pos]
    exact resolveConn_idem _ _ c
  · simp only [Function.comp_apply, hf]
    simp [hf]

/-- C8 counterexample: the claim quantifies over every connection whose from
mark is non-null, but the code gates on Python truthiness (lines 462 and 470),
so a non-null empty-string mark is skipped entirely.  Here a component bears
mark empty-string on the connection's own page - the page-scoped key matches,
and the claim says resolution assigns that component's identifier - yet the
resolver leaves the identifier null. -/
theorem resolver_nonnull_empty_mark_counterexample :
    (emptyMarkStore.connections.map (fun c => c.fromComponentMark)) = [some ""] ∧
    (emptyMarkStore.components.filter
        (fun k => k.fileId == 1 && k.mark == "" && k.pdfPageIndex == 5)).length = 1 ∧
    ((resolveComponentReferences 1 emptyMarkStore).connections.map
        (fun c => c.fromComponentId)) = [none] := by
  decide

/-- C8 amended: for a connection of the document whose endpoint mark is truthy
(present and nonempty - Python truthiness at lines 462 and 470 skips null and
empty-string marks alike), the resolver tries the page-scoped key first;
failing that it falls back to the FIRST component bearing the mark in
store-iteration order, even on another page; and if no component bears the
mark the identifier is left as it was (null for an unresolved connection).
Both endpoints follow the same rule. -/
theorem resolver_two_tier_first_mark_fallback (store : Store) (fid : Nat)
    (i : Nat) (c : ConnectionRec) (hc : store.connections[i]? = some c)
    (hfid : c.fileId = fid) :
    ∃ c', (resolveComponentReferences fid store).connections[i]? = some c' ∧
      (∀ m, c.fromComponentMark = some m → m ≠ "" →
        c'.fromComponentId = twoTierLookup
          (store.components.filter (fun k => k.fileId == fid)) m
          c.pdfPageIndex c.fromComponentId) ∧
      (∀ m, c.toComponentMark = some m → m ≠ "" →
        c'.toComponentId = twoTierLookup
          (store.components.filter (fun k => k.fileId == fid)) m
          c.pdfPageIndex c.toComponentId) := by
  refine ⟨resolveConn
      (buildMarkToId (store.components.filter (fun k => k.fileId == fid))).1
      (buildMarkToId (store.components.filter (fun k => k.fileId == fid))).2 c,
    ?_, ?_, ?_⟩
  · simp only [resolveComponentReferences, List.getElem?_map, hc, Option.map_some]
    simp [hfid]
  · intro m hm hne
    show resolveOneSide _ _ c.fromComponentMark c.pdfPageIndex c.fromComponentId = _
    rw [hm]
    simp only [resolveOneSide]
    rw [if_neg hne]
    unfold twoTierLookup
    unfold buildMarkToId
    rw [foldl_markToIdStep_pageMap
        (store.components.filter (fun k => k.fileId == fid)) _ m c.pdfPageIndex,
      foldl_markToIdStep_markMap
        (store.components.filter (fun k => k.fileId == fid)) _ m rfl]
    cases hr : (store.components.filter (fun k => k.fileId == fid)).reverse.find?
        (fun k => k.mark == m && k.pdfPageIndex == c.pdfPageIndex) with
    | some k => simp
    | none =>
      cases hf : (store.components.filter (fun k => k.fileId == fid)).find?
          (fun k => k.mark == m) with
      | some k => simp
      | none => simp
  · intro m hm hne
    show resolveOneSide _ _ c.toComponentMark c.pdfPageIndex c.toComponentId = _
    rw [hm]
    simp only [resolveOneSide]
    rw [if_neg hne]
    unfold twoTierLookup
    unfold buildMarkToId
    rw [foldl_markToIdStep_pageMap
        (store.components.filter (fun k => k.fileId == fid)) _ m c.pdfPageIndex,
      foldl_markToIdStep_markMap
        (store.components.filter (fun k => k.fileId == fid)) _ m rfl]
    cases hr : (store.components.filter (fun k => k.fileId == fid)).reverse.find?
        (fun k => k.mark == m && k.pdfPageIndex == c.pdfPageIndex) with
    | some k => simp
    | none =>
      cases hf : (store.components.filter (fun k => k.fileId == fid)).find?
          (fun k => k.mark == m) with
      | some k => simp
      | none => simp

/-- C8 witnessed at the spec's tie-break scenario: components marked X on pages
0 and 2, a connection on page 5 referencing X; the fallback picks the page-0
component, id 1. -/
theorem resolver_two_tier_first_mark_fallback_witness :
    (resolverStore.connections[0]? = some
        { id := 10, fileId := 1, fromComponentId := none, toComponentId := none,
          fromComponentMark := some "X", toComponentMark := none,
          pdfPageIndex := 5, isExternal := false } ∧
      (1 : Nat) = 1) ∧
    (∃ c', (resolveComponentReferences 1 resolverStore).connections[0]? = some c' ∧
      (∀ m, (some "X" : Option String) = some m → m ≠ "" →
        c'.fromComponentId = twoTierLookup
          (resolverStore.components.filter (fun k => k.fileId == 1)) m 5 none) ∧
      (∀ m, (none : Option String) = some m → m ≠ "" →
        c'.toComponentId = twoTierLookup
          (resolverStore.components.filter (fun k => k.fileId == 1)) m 5 none)) ∧
    twoTierLookup (resolverStore.components.filter (fun k => k.fileId == 1))
      "X" 5 none = some 1 :=
  ⟨⟨rfl, rfl⟩,
    resolver_two_tier_first_mark_fallback resolverStore 1 0
      { id := 10, fileId := 1, fromComponentId := none, toComponentId := none,
        fromComponentMark := some "X", toComponentMark := none,
        pdfPageIndex := 5, isExternal := false } rfl rfl,
    by decide⟩

/-- C9 counterexample: with four components and one connection extracted on the
page and expected counts of two each, the claim's per-ratio-capped mean is
3/4, but the code caps only the final mean: the stored confidence is 1. -/
theorem validatePage_confidence_per_ratio_cap_counterexample :
    (validatePage validationStore 1 0
        (some { components := some 2, connections := some 2 })).confidenceScore = 1 ∧
    claimPerRatioCappedConfidence 4 1
      (some { components := some 2, connections := some 2 }) = 3/4 ∧
    ((1 : ℚ) ≠ 3/4) ∧
    (validationStore.components.filter
        (fun c => c.fileId == 1 && c.pdfPageIndex == 0)).length = 4 ∧
    (validationStore.connections.filter
        (fun c => c.fileId == 1 && c.pdfPageIndex == 0)).length = 1 := by
  refine ⟨?_, ?_, by norm_num, by decide, by decide⟩
  · simp [validatePage, validationStore, emptyStore, expectedTruthy,
      validateCoordinates, validateDataIntegrity]
    norm_num
  · simp [claimPerRatioCappedConfidence, expectedTruthy]
    norm_num

/-- C9 amended: when positive expected counts for components and connections
are supplied, the stored confidence is the mean of the two raw completeness
ratios with the cap applied to the mean, min(1, (extracted/expected averaged));
when no expected counts are supplied it is the fixed default 0.9. -/
theorem validatePage_confidence_caps_mean (store : Store) (fid : Nat) (idx : Int)
    (ec en : Nat) (hec : 0 < ec) (hen : 0 < en) :
    (validatePage store fid idx
        (some { components := some ec, connections := some en })).confidenceScore
      = min ((((store.components.filter
            (fun c => c.fileId == fid && c.pdfPageIndex == idx)).length : ℚ) / ec
          + ((store.connections.filter
            (fun c => c.fileId == fid && c.pdfPageIndex == idx)).length : ℚ) / en) / 2) 1 ∧
    (validatePage store fid idx none).confidenceScore = 9/10 := by
  constructor
  · simp only [validatePage, expectedTruthy]
    simp [hec, hen]
  · simp [validatePage, expectedTruthy]
    norm_num

/-- C9 amended, witnessed at the counterexample store: the mean of ratios 2 and
1/2 is 5/4, capped to 1. -/
theorem validatePage_confidence_caps_mean_witness :
    ((0 : Nat) < 2 ∧ (0 : Nat) < 2) ∧
    ((validatePage validationStore 1 0
        (some { components := some 2, connections := some 2 })).confidenceScore
      = min ((((validationStore.components.filter
            (fun c => c.fileId == 1 && c.pdfPageIndex == 0)).length : ℚ) / 2
          + ((validationStore.connections.filter
            (fun c => c.fileId == 1 && c.pdfPageIndex == 0)).length : ℚ) / 2) / 2) 1 ∧
      (validatePage validationStore 1 0 none).confidenceScore = 9/10) :=
  ⟨⟨by norm_num, by norm_num⟩,
    validatePage_confidence_caps_mean validationStore 1 0 2 2
      (by norm_num) (by norm_num)⟩

end Atlas
